import Mathlib

/-!
Verification of the screen-recorder core of the voiceAgent repository
(`screen_recorder.py`), shallowly embedded in Lean 4.

A captured frame is stored by the recorder as a pair `(frame, timestamp)`
(`_recording_loop`, line 180).  We model the pixel buffer by an opaque
numeric identifier and the timestamp by a natural number.
-/

/-- A buffered entry `(frame, timestamp)` as appended by `_recording_loop`:
the first component stands for the pixel data, the second for the capture
timestamp. -/
abbrev Frame := Nat × Nat

/-- The trim loop of `_recording_loop` (lines 183-184):
`while len(self.frame_buffer) > self.max_frames: self.frame_buffer.popleft()`.
Repeatedly removes the front element while the length exceeds `max`. -/
def trimFront (max : Nat) : List Frame → List Frame
  | [] => []
  | x :: xs => if xs.length + 1 > max then trimFront max xs else x :: xs

/-- One iteration of the buffer maintenance in `_recording_loop`
(lines 180-184): `self.frame_buffer.append((frame, timestamp))` followed by
the trim loop. -/
def pushTrim (max : Nat) (buf : List Frame) (x : Frame) : List Frame :=
  trimFront max (buf ++ [x])

/-- `self.max_frames = buffer_minutes * 60 * fps` (`__init__`, line 31). -/
def maxFramesOf (buffer_minutes fps : Nat) : Nat :=
  buffer_minutes * 60 * fps

/-- The buffer contents after the recording loop has pushed the frames `xs`,
in order, starting from the empty deque created in `__init__` (line 30). -/
def buffAfter (max : Nat) (xs : List Frame) : List Frame :=
  List.foldl (pushTrim max) [] xs

/-- Python's tail slice `list(buf)[-n:]` used by `save_clip` (line 229) for
`n ≥ 1`: the most recent `n` entries (all of them when `n ≥ len`). -/
def lastN (n : Nat) (l : List Frame) : List Frame :=
  l.drop (l.length - n)

theorem trimFront_eq_drop (max : Nat) (l : List Frame) :
    trimFront max l = l.drop (l.length - max) := by
  induction l with
  | nil => simp [trimFront]
  | cons x xs ih =>
    by_cases h : xs.length + 1 > max
    · have hx : (x :: xs).length - max = (xs.length - max) + 1 := by
        simp only [List.length_cons]; omega
      simp only [trimFront, if_pos h, hx, List.drop_succ_cons, ih]
    · have hx : xs.length + 1 - max = 0 := by omega
      simp [trimFront, h, hx]

theorem trimFront_length_le (max : Nat) (l : List Frame) :
    (trimFront max l).length ≤ max := by
  rw [trimFront_eq_drop, List.length_drop]
  omega

theorem pushTrim_length_le (max : Nat) (buf : List Frame) (x : Frame) :
    (pushTrim max buf x).length ≤ max :=
  trimFront_length_le max (buf ++ [x])

theorem pushTrim_eq_drop (max : Nat) (buf : List Frame) (x : Frame) :
    pushTrim max buf x = (buf ++ [x]).drop (buf.length + 1 - max) := by
  rw [pushTrim, trimFront_eq_drop]
  simp

theorem foldl_pushTrim_length_le (max : Nat) (xs : List Frame)
    (buf : List Frame) (hbuf : buf.length ≤ max) :
    (List.foldl (pushTrim max) buf xs).length ≤ max := by
  induction xs generalizing buf with
  | nil => simpa using hbuf
  | cons x xs ih =>
    simpa using ih (pushTrim max buf x) (pushTrim_length_le max buf x)

theorem buffAfter_eq_drop (max : Nat) (xs : List Frame) :
    buffAfter max xs = xs.drop (xs.length - max) := by
  induction xs using List.reverseRecOn with
  | nil => simp [buffAfter]
  | append_singleton xs x ih =>
    have hstep : buffAfter max (xs ++ [x]) =
        pushTrim max (buffAfter max xs) x := by
      simp [buffAfter]
    rw [hstep, ih, pushTrim_eq_drop]
    have hlen : (xs.drop (xs.length - max)).length = min xs.length max := by
      rw [List.length_drop]; omega
    by_cases hm : max ≤ xs.length
    · by_cases hz : max = 0
      · subst hz
        simp
      · have h1 : (xs.drop (xs.length - max)).length + 1 - max = 1 := by
          rw [hlen]; omega
        have h2 : (xs ++ [x]).length - max = (xs.length - max) + 1 := by
          simp only [List.length_append, List.length_singleton]; omega
        rw [h1, h2]
        have hle : 1 ≤ (xs.drop (xs.length - max)).length := by
          rw [hlen]; omega
        rw [List.drop_append_of_le_length hle, List.drop_drop]
        have hle2 : (xs.length - max) + 1 ≤ xs.length := by omega
        rw [List.drop_append_of_le_length hle2]
    · have h1 : (xs.drop (xs.length - max)).length + 1 - max = 0 := by
        rw [hlen]; omega
      have h2 : (xs ++ [x]).length - max = 0 := by
        simp only [List.length_append, List.length_singleton]; omega
      have h3 : xs.length - max = 0 := by omega
      rw [h1, h2, h3]
      simp

/-- C1: Capacity invariant.  For every sequence of frames `xs` pushed by the
recording loop starting from the empty buffer, after each append-and-trim
step (`_recording_loop`, lines 180-184) the buffer holds at most
`max_frames = buffer_minutes * 60 * fps` frames (`__init__`, line 31).
Quantifying over all `xs` covers every prefix of a longer push sequence,
hence the bound after every individual step. -/
theorem capacity_invariant (buffer_minutes fps : Nat) (xs : List Frame) :
    (buffAfter (maxFramesOf buffer_minutes fps) xs).length ≤
      maxFramesOf buffer_minutes fps :=
  foldl_pushTrim_length_le _ xs [] (Nat.zero_le _)

/-- C2: FIFO eviction.  Pushing `cap + k` frames (`k ≥ 1`) through the
append-and-trim step leaves exactly the most recent `cap` frames in original
insertion order, and the tail slice of `cap` frames taken by `save_clip`
(line 229) returns exactly those frames: for the concrete scenario, pushing
200 timestamped frames with capacity 150 leaves (and snapshots) frames
t50..t199 in order. -/
theorem fifo_eviction (cap k : Nat) (hk : 1 ≤ k) (xs : List Frame)
    (hlen : xs.length = cap + k) :
    buffAfter cap xs = xs.drop k ∧
      lastN cap (buffAfter cap xs) = xs.drop k := by
  have h1 : buffAfter cap xs = xs.drop k := by
    rw [buffAfter_eq_drop, hlen]
    congr 1
    omega
  refine ⟨h1, ?_⟩
  rw [h1, lastN]
  have hlen2 : (xs.drop k).length = cap := by
    rw [List.length_drop, hlen]; omega
  rw [hlen2]
  simp

/-- A monitor descriptor as built by `detect_monitors` (lines 70-79):
Windows rectangle corners plus derived width/height and the primary flag.
The enumeration itself is platform code; its results enter the model as
data.  By construction `right = left + width` and `bottom = top + height`. -/
structure Monitor where
  index : Nat
  left : Int
  top : Int
  width : Int
  height : Int
  right : Int
  bottom : Int
  is_primary : Bool
deriving Repr, DecidableEq

/-- The mutable fields of a `ScreenRecorder` object (`__init__`,
lines 27-36): buffer configuration, run flag, the frame deque, the monitor
selection and the recording-area fields set by `setup_recording_area`. -/
structure RecState where
  buffer_minutes : Nat
  fps : Nat
  is_recording : Bool
  frame_buffer : List Frame
  max_frames : Nat
  monitor_index : Option Int
  monitors : List Monitor
  recording_bbox : Int × Int × Int × Int
  screen_width : Int
  screen_height : Int
  recording_description : String
deriving Repr, DecidableEq

/-- `ScreenRecorder.setup_recording_area` (lines 99-136).  `screenSize`
stands for the external `pyautogui.size()` call used in the no-monitor
fallback.  The four branches mirror the source: no monitors, all monitors
(union box), a valid specific index, and the silent primary fallback for an
out-of-range index. -/
def setup_recording_area (screenSize : Int × Int) (s : RecState) : RecState :=
  match s.monitors with
  | [] =>
    { s with
      screen_width := screenSize.1
      screen_height := screenSize.2
      recording_bbox := (0, 0, screenSize.1, screenSize.2)
      recording_description :=
        "Full screen (" ++ toString screenSize.1 ++ "x" ++ toString screenSize.2 ++ ")" }
  | m0 :: rest =>
    match s.monitor_index with
    | none =>
      let left := (rest.map Monitor.left).foldl min m0.left
      let top := (rest.map Monitor.top).foldl min m0.top
      let right := (rest.map Monitor.right).foldl max m0.right
      let bottom := (rest.map Monitor.bottom).foldl max m0.bottom
      { s with
        recording_bbox := (left, top, right, bottom)
        screen_width := right - left
        screen_height := bottom - top
        recording_description :=
          "All monitors (" ++ toString (right - left) ++ "x" ++ toString (bottom - top) ++ ")" }
    | some i =>
      if 0 ≤ i ∧ i < ((m0 :: rest).length : Int) then
        let monitor := (m0 :: rest).getD i.toNat m0
        let monitor_name :=
          if monitor.is_primary then "Primary" else "Monitor " ++ toString (i + 1)
        { s with
          recording_bbox := (monitor.left, monitor.top, monitor.right, monitor.bottom)
          screen_width := monitor.width
          screen_height := monitor.height
          recording_description :=
            monitor_name ++ " (" ++ toString monitor.width ++ "x" ++
              toString monitor.height ++ ")" }
      else
        let primary := ((m0 :: rest).find? Monitor.is_primary).getD m0
        { s with
          recording_bbox := (primary.left, primary.top, primary.right, primary.bottom)
          screen_width := primary.width
          screen_height := primary.height
          recording_description :=
            "Primary monitor (" ++ toString primary.width ++ "x" ++
              toString primary.height ++ ")" }

/-- `ScreenRecorder.set_monitor` (lines 138-143): store the new index, rerun
`setup_recording_area`, and return the confirmation string. -/
def set_monitor (screenSize : Int × Int) (s : RecState) (mi : Option Int) :
    RecState × String :=
  let s2 := setup_recording_area screenSize { s with monitor_index := mi }
  (s2, "Now recording " ++ s2.recording_description)

/-- `ScreenRecorder.start_recording` (lines 145-154).  The result is the new
state, whether a new recording thread was spawned, and the Python return
value of the call (`None` on both paths: the early `return` for an
already-running session and the fall-off-the-end return after spawning). -/
def start_recording (s : RecState) : RecState × Bool × Option String :=
  if s.is_recording then (s, false, none)
  else ({ s with is_recording := true }, true, none)

/-- `ScreenRecorder.stop_recording` (lines 156-159): clears the run flag and
nothing else. -/
def stop_recording (s : RecState) : RecState :=
  { s with is_recording := false }

/-- Dimensions of the image returned by `pyautogui.screenshot(region=r)`
as called in `_recording_loop` (line 171).  Per pyautogui's documented
interface the `region` argument is the 4-tuple (left, top, width, height),
so the returned image is `region[2]` wide and `region[3]` high. -/
def pyautoguiScreenshotDims (region : Int × Int × Int × Int) : Int × Int :=
  (region.2.2.1, region.2.2.2)

/-- Modelled from the spec: a Region is "a rectangle described by
(left, top, width, height) in desktop pixel coordinates" derived from a
MonitorDescriptor.  Used to compare the code's `recording_bbox` against the
spec's Region for the same monitor. -/
def regionTuple (m : Monitor) : Int × Int × Int × Int :=
  (m.left, m.top, m.width, m.height)

/-- Observable outcome of one `save_clip` call (lines 196-247): the Python
return value (path on success, `None` on any failure), the output files
present on disk afterwards, and the frames handed to `out.write`. -/
structure SaveOutcome where
  retval : Option String
  files : List String
  framesWritten : List Frame
deriving Repr, DecidableEq

/-- `ScreenRecorder.save_clip` (lines 196-247).  `genTimestamp` stands for
the external `datetime.now().strftime(...)` used to generate a default
filename; `"recordings/" ++ fname` models `os.path.join(self.recordings_dir,
filename)`.  `failAfter = some k` models the external encoder raising an
exception after `k` frames were written (e.g. a failed write): the
`cv2.VideoWriter` constructor has already created the output file, and the
`except` branch (lines 245-247) only prints and returns `None`, removing
nothing from disk.  `failAfter = none` models a fully successful encode. -/
def save_clip (fps : Nat) (genTimestamp : String) (failAfter : Option Nat)
    (buf : List Frame) (duration : Int) (filename : Option String) :
    SaveOutcome :=
  if buf.isEmpty then ⟨none, [], []⟩
  else
    let frames_needed : Int := min (duration * (fps : Int)) (buf.length : Int)
    if frames_needed ≤ 0 then ⟨none, [], []⟩
    else
      let fname :=
        filename.getD ("clip_" ++ toString duration ++ "s_" ++ genTimestamp ++ ".mp4")
      let filepath := "recordings/" ++ fname
      let frames_to_save := lastN frames_needed.toNat buf
      match failAfter with
      | some k => ⟨none, [filepath], frames_to_save.take k⟩
      | none => ⟨some filepath, [filepath], frames_to_save⟩

/-- The 200 frames of the C2 scenario: timestamps `t0 .. t199`. -/
def scenarioFrames : List Frame :=
  (List.range 200).map (fun t => (0, t))

/-- Witness for C2 at the concrete scenario of the spec: capacity 150,
200 pushed frames with timestamps 0..199; the buffer (and the tail slice of
150 frames) is exactly the frames with timestamps 50..199, in order. -/
theorem fifo_eviction_witness :
    buffAfter 150 scenarioFrames = scenarioFrames.drop 50 ∧
      lastN 150 (buffAfter 150 scenarioFrames) = scenarioFrames.drop 50 :=
  fifo_eviction 150 50 (by decide) scenarioFrames (by simp [scenarioFrames])

/-- Primary monitor at the desktop origin: 1920x1080 at (0, 0). -/
def monA : Monitor := ⟨0, 0, 0, 1920, 1080, 1920, 1080, true⟩

/-- Secondary monitor to the right of the primary: 1920x1080 at (1920, 0),
so its Windows rectangle is (1920, 0, 3840, 1080). -/
def monB : Monitor := ⟨1, 1920, 0, 1920, 1080, 3840, 1080, false⟩

/-- A recorder state over the two-monitor desktop, before any region
selection: defaults of `__init__` with an empty buffer. -/
def baseState : RecState :=
  ⟨5, 30, false, [], 9000, none, [monA, monB], (0, 0, 0, 0), 0, 0, ""⟩

/-- The recorder state after selecting monitor index 1 (the secondary
monitor) and rerunning `setup_recording_area`. -/
def c4Configured : RecState :=
  setup_recording_area (1920, 1080) { baseState with monitor_index := some 1 }

/-- C4 (code evaluation at the failing input): with the secondary monitor
(index 1, rectangle left 1920, top 0, width 1920, height 1080) selected,
`setup_recording_area` stores `(left, top, right, bottom)` in
`recording_bbox`, which is not the spec's Region `(left, top, width,
height)`; handed to `pyautogui.screenshot(region=...)`, whose third and
fourth entries are width and height, it produces a 3840x1080 frame, which
differs from the configured region's (and the code's own
`screen_width`/`screen_height`, used for the `VideoWriter`) 1920x1080. -/
theorem region_capture_mismatch :
    c4Configured.recording_bbox = (1920, 0, 3840, 1080) ∧
      c4Configured.recording_bbox ≠ regionTuple monB ∧
      c4Configured.screen_width = 1920 ∧
      c4Configured.screen_height = 1080 ∧
      pyautoguiScreenshotDims c4Configured.recording_bbox = (3840, 1080) ∧
      pyautoguiScreenshotDims c4Configured.recording_bbox ≠
        (c4Configured.screen_width, c4Configured.screen_height) := by
  refine ⟨rfl, by decide, rfl, rfl, rfl, by decide⟩

/-- C5 (counterexample): `start_recording` on an already-running session
returns `None` — exactly the same Python return value as a successful
start on a stopped session — so there is no observable failure result
distinct from a successful start, contrary to the claim. -/
theorem start_silent_counterexample :
    (start_recording { baseState with is_recording := true }).2.2 = none ∧
      (start_recording baseState).2.2 = none ∧
      (start_recording { baseState with is_recording := true }).2.2 =
        (start_recording baseState).2.2 :=
  ⟨rfl, rfl, rfl⟩

/-- C5 (amended): `start_recording` on a running session is a silent no-op:
the state is unchanged, no second recording thread is spawned, and the
return value is `None`, identical to a successful start's return value. -/
theorem start_already_running_noop (s : RecState) (h : s.is_recording = true) :
    start_recording s = (s, false, none) := by
  simp [start_recording, h]

/-- Witness for the amended C5 at a concrete running state. -/
theorem start_already_running_noop_witness :
    start_recording { baseState with is_recording := true } =
      ({ baseState with is_recording := true }, false, none) :=
  start_already_running_noop { baseState with is_recording := true } rfl

/-- A running recorder state holding one buffered frame. -/
def c6State : RecState :=
  { baseState with is_recording := true, frame_buffer := [(7, 3)] }

/-- C6 (counterexample): `stop_recording` on a session holding one buffered
frame leaves that frame in the buffer — the buffer does not hold zero
frames after stop, contrary to the claim. -/
theorem stop_keeps_buffer_counterexample :
    (stop_recording c6State).frame_buffer = [(7, 3)] ∧
      (stop_recording c6State).frame_buffer ≠ [] :=
  ⟨rfl, by decide⟩

theorem setup_recording_area_frame_buffer (screenSize : Int × Int)
    (s : RecState) :
    (setup_recording_area screenSize s).frame_buffer = s.frame_buffer := by
  unfold setup_recording_area
  split
  · rfl
  · split
    · rfl
    · split <;> rfl

/-- C6 (amended): the frame buffer is never cleared: `stop_recording` leaves
the buffered frames untouched (only the run flag changes), and `set_monitor`
likewise leaves every previously buffered frame present with its original
contents. -/
theorem buffer_never_cleared (s : RecState) (screenSize : Int × Int)
    (mi : Option Int) :
    (stop_recording s).frame_buffer = s.frame_buffer ∧
      ((set_monitor screenSize s mi).1).frame_buffer = s.frame_buffer := by
  exact ⟨rfl, setup_recording_area_frame_buffer screenSize _⟩

/-- The state of a `VoiceControlledRecorder` (lines 262-265): the wrapped
recorder plus the tracked `current_monitor` index. -/
structure VCState where
  recorder : RecState
  current_monitor : Option Int
deriving Repr, DecidableEq

/-- `VoiceControlledRecorder.set_monitor_by_number` (lines 385-394):
converts the 1-based number to a 0-based index, delegates to `set_monitor`
when in range, and otherwise returns the not-found message without touching
the recorder. -/
def set_monitor_by_number (screenSize : Int × Int) (v : VCState)
    (monitor_num : Int) : VCState × String :=
  let monitor_index := monitor_num - 1
  if 0 ≤ monitor_index ∧ monitor_index < (v.recorder.monitors.length : Int) then
    let r := set_monitor screenSize v.recorder (some monitor_index)
    (⟨r.1, some monitor_index⟩, r.2)
  else
    (v, "Monitor " ++ toString monitor_num ++ " not found. Available monitors: 1-" ++
      toString v.recorder.monitors.length)

/-- `VoiceControlledRecorder.set_monitor_by_type` (lines 362-383): the
primary/secondary/all branches, with the secondary branch guarded by the
two-monitor check, and the trailing invalid-type message. -/
def set_monitor_by_type (screenSize : Int × Int) (v : VCState)
    (monitor_type : String) : VCState × String :=
  if monitor_type = "primary" then
    let primary_index : Int :=
      ((v.recorder.monitors.findIdx? Monitor.is_primary).getD 0 : Nat)
    let r := set_monitor screenSize v.recorder (some primary_index)
    (⟨r.1, some primary_index⟩, r.2)
  else if monitor_type = "secondary" then
    if v.recorder.monitors.length < 2 then (v, "No secondary monitor detected")
    else
      let secondary_index : Int :=
        ((v.recorder.monitors.findIdx? (fun m => !m.is_primary)).getD 1 : Nat)
      let r := set_monitor screenSize v.recorder (some secondary_index)
      (⟨r.1, some secondary_index⟩, r.2)
  else if monitor_type = "all" then
    let r := set_monitor screenSize v.recorder none
    (⟨r.1, none⟩, r.2)
  else (v, "Invalid monitor type")

/-- C7: invalid monitor selection is surfaced and leaves the region
unchanged.  `set_monitor_by_number` with an out-of-range 1-based number
returns the not-found message and the whole voice-recorder state (hence the
active region) unchanged; `set_monitor_by_type` with "secondary" on a
desktop with fewer than two monitors returns the no-secondary message with
the state likewise unchanged. -/
theorem invalid_monitor_selection (screenSize : Int × Int) (v w : VCState)
    (monitor_num : Int)
    (hrange : monitor_num < 1 ∨ (v.recorder.monitors.length : Int) < monitor_num)
    (hsec : w.recorder.monitors.length < 2) :
    set_monitor_by_number screenSize v monitor_num =
        (v, "Monitor " ++ toString monitor_num ++ " not found. Available monitors: 1-" ++
          toString v.recorder.monitors.length) ∧
      set_monitor_by_type screenSize w "secondary" =
        (w, "No secondary monitor detected") := by
  constructor
  · simp only [set_monitor_by_number]
    rw [if_neg]
    omega
  · simp only [set_monitor_by_type]
    rw [if_pos trivial, if_pos hsec,
      if_neg (by decide : ¬ ("secondary" : String) = "primary")]

/-- A voice-recorder state over a single-monitor desktop. -/
def v0 : VCState := ⟨{ baseState with monitors := [monA] }, none⟩

/-- Witness for C7: on a one-monitor desktop, asking for monitor 3 returns
the not-found message, and asking for the secondary monitor returns the
no-secondary message; the state is unchanged in both cases. -/
theorem invalid_monitor_selection_witness :
    set_monitor_by_number (1920, 1080) v0 3 =
        (v0, "Monitor " ++ toString (3 : Int) ++ " not found. Available monitors: 1-" ++
          toString v0.recorder.monitors.length) ∧
      set_monitor_by_type (1920, 1080) v0 "secondary" =
        (v0, "No secondary monitor detected") :=
  invalid_monitor_selection (1920, 1080) v0 v0 3 (by decide) (by decide)

/-- C3: Clip duration clamping.  For a `save_clip` call with positive
requested duration on a non-empty buffer (and a positive configured fps,
without which the recorder cannot run at all), the call succeeds and the
frames handed to the encoder number exactly
`min(duration_seconds * fps, len(frame_buffer))`; in particular a request
longer than the buffered history encodes exactly the whole buffer. -/
theorem clip_duration_clamping (fps : Nat) (hfps : 1 ≤ fps)
    (genTs : String) (buf : List Frame) (hbuf : buf ≠ [])
    (duration : Int) (hdur : 1 ≤ duration) (filename : Option String) :
    ((save_clip fps genTs none buf duration filename).framesWritten.length : Int) =
        min (duration * (fps : Int)) (buf.length : Int) ∧
      (save_clip fps genTs none buf duration filename).retval.isSome = true ∧
      ((buf.length : Int) ≤ duration * (fps : Int) →
        (save_clip fps genTs none buf duration filename).framesWritten = buf) := by
  have hlen1 : 1 ≤ buf.length := List.length_pos.mpr hbuf
  have hfz : (1 : Int) ≤ (fps : Int) := by exact_mod_cast hfps
  have hprod : 1 ≤ duration * (fps : Int) := by nlinarith
  have hlenz : (1 : Int) ≤ (buf.length : Int) := by exact_mod_cast hlen1
  have hmin : 1 ≤ min (duration * (fps : Int)) (buf.length : Int) :=
    le_min hprod hlenz
  have hminle : min (duration * (fps : Int)) (buf.length : Int) ≤
      (buf.length : Int) := min_le_right _ _
  have hempty : buf.isEmpty = false := by
    cases buf with
    | nil => exact absurd rfl hbuf
    | cons a l => rfl
  have hcond : ¬ min (duration * (fps : Int)) (buf.length : Int) ≤ 0 := by
    omega
  have hsave : save_clip fps genTs none buf duration filename =
      ⟨some ("recordings/" ++
          filename.getD ("clip_" ++ toString duration ++ "s_" ++ genTs ++ ".mp4")),
        ["recordings/" ++
          filename.getD ("clip_" ++ toString duration ++ "s_" ++ genTs ++ ".mp4")],
        lastN (min (duration * (fps : Int)) (buf.length : Int)).toNat buf⟩ := by
    simp only [save_clip, hempty, Bool.false_eq_true, if_false, if_neg hcond]
  have htn : (min (duration * (fps : Int)) (buf.length : Int)).toNat ≤
      buf.length := by omega
  have hlastlen : (lastN (min (duration * (fps : Int)) (buf.length : Int)).toNat
      buf).length = (min (duration * (fps : Int)) (buf.length : Int)).toNat := by
    rw [lastN, List.length_drop]
    omega
  refine ⟨?_, ?_, ?_⟩
  · rw [hsave]
    simp only [hlastlen]
    omega
  · rw [hsave]
    rfl
  · intro hlong
    have heq : min (duration * (fps : Int)) (buf.length : Int) =
        (buf.length : Int) := min_eq_right hlong
    rw [hsave]
    simp only [heq, Int.toNat_natCast, lastN, Nat.sub_self, List.drop_zero]

/-- Witness for C3: fps 30, a buffer of three frames, a requested duration
of 2 seconds; the clip request is clamped to the three buffered frames and
succeeds. -/
theorem clip_duration_clamping_witness :
    (((save_clip 30 "20240101_120000" none [(0, 0), (1, 1), (2, 2)] 2
          none).framesWritten.length : Int) =
        min ((2 : Int) * (30 : Nat)) (([(0, 0), (1, 1), (2, 2)] : List Frame).length : Int)) ∧
      (save_clip 30 "20240101_120000" none [(0, 0), (1, 1), (2, 2)] 2
          none).retval.isSome = true ∧
      ((([(0, 0), (1, 1), (2, 2)] : List Frame).length : Int) ≤ (2 : Int) * (30 : Nat) →
        (save_clip 30 "20240101_120000" none [(0, 0), (1, 1), (2, 2)] 2
            none).framesWritten = [(0, 0), (1, 1), (2, 2)]) :=
  clip_duration_clamping 30 (by decide) "20240101_120000"
    [(0, 0), (1, 1), (2, 2)] (by decide) 2 (by decide) none

/-- C8: `save_clip` on an empty buffer fails immediately with the
empty-buffer failure (`None` with the no-frames diagnostic, lines 207-209):
no output file is created and no frame is written; the call returns at once
rather than retrying. -/
theorem empty_buffer_failure (fps : Nat) (genTs : String)
    (failAfter : Option Nat) (buf : List Frame) (hbuf : buf = [])
    (duration : Int) (filename : Option String) :
    save_clip fps genTs failAfter buf duration filename = ⟨none, [], []⟩ := by
  subst hbuf
  rfl

/-- Witness for C8: a freshly started session (empty buffer) rejects a
5-second clip request with no file written. -/
theorem empty_buffer_failure_witness :
    save_clip 30 "20240101_120000" none [] 5 none = ⟨none, [], []⟩ :=
  empty_buffer_failure 30 "20240101_120000" none [] rfl 5 none

/-- C10: when the computed frame count `min(duration_seconds * fps,
len(frame_buffer))` is not positive on a non-empty buffer (e.g. a requested
duration of 0), `save_clip` returns the failure value `None` (lines
214-216) and writes no file. -/
theorem nonpositive_frame_count_failure (fps : Nat) (genTs : String)
    (failAfter : Option Nat) (buf : List Frame) (hbuf : buf ≠ [])
    (duration : Int)
    (hle : min (duration * (fps : Int)) (buf.length : Int) ≤ 0)
    (filename : Option String) :
    save_clip fps genTs failAfter buf duration filename = ⟨none, [], []⟩ := by
  have hempty : buf.isEmpty = false := by
    cases buf with
    | nil => exact absurd rfl hbuf
    | cons a l => rfl
  simp only [save_clip, hempty, Bool.false_eq_true, if_false, if_pos hle]

/-- Witness for C10: a zero-length request on a one-frame buffer is
rejected with no file written. -/
theorem nonpositive_frame_count_failure_witness :
    save_clip 20 "20240101_120000" none [(0, 0)] 0 none = ⟨none, [], []⟩ :=
  nonpositive_frame_count_failure 20 "20240101_120000" none [(0, 0)]
    (by decide) 0 (by decide) none

/-- C9 (counterexample): a `save_clip` call on a one-frame buffer whose
encoder raises before any frame is written returns the failure value `None`,
yet the output file created by the `cv2.VideoWriter` constructor is still
on disk afterwards — the `except` branch performs no cleanup, contrary to
the claim that no partial output file is left behind. -/
theorem encoding_failure_partial_file_counterexample :
    (save_clip 20 "20240101_120000" (some 0) [(0, 0)] 1 none).retval = none ∧
      (save_clip 20 "20240101_120000" (some 0) [(0, 0)] 1 none).files =
        ["recordings/clip_1s_20240101_120000.mp4"] ∧
      (save_clip 20 "20240101_120000" (some 0) [(0, 0)] 1 none).files ≠ [] :=
  ⟨rfl, rfl, by decide⟩

/-- C9 (amended): when encoding fails during `save_clip` (the encoder
raises after `k` written frames), the call returns the failure value `None`
and the session's buffer and region state are untouched (the function
mutates no recorder field), but the partially written encoder output is not
cleaned up: the output file remains on disk. -/
theorem encoding_failure_no_cleanup (fps : Nat) (genTs : String) (k : Nat)
    (buf : List Frame) (hbuf : buf ≠ []) (duration : Int)
    (hpos : 1 ≤ min (duration * (fps : Int)) (buf.length : Int))
    (filename : Option String) :
    (save_clip fps genTs (some k) buf duration filename).retval = none ∧
      (save_clip fps genTs (some k) buf duration filename).files =
        ["recordings/" ++
          filename.getD ("clip_" ++ toString duration ++ "s_" ++ genTs ++ ".mp4")] := by
  have hempty : buf.isEmpty = false := by
    cases buf with
    | nil => exact absurd rfl hbuf
    | cons a l => rfl
  have hcond : ¬ min (duration * (fps : Int)) (buf.length : Int) ≤ 0 := by
    omega
  simp only [save_clip, hempty, Bool.false_eq_true, if_false, if_neg hcond]
  exact ⟨trivial, trivial⟩

/-- Witness for the amended C9: the failing encode of the counterexample
input leaves the generated output file on disk while returning `None`. -/
theorem encoding_failure_no_cleanup_witness :
    (save_clip 20 "20240101_120000" (some 0) [(9, 9)] 1 none).retval = none ∧
      (save_clip 20 "20240101_120000" (some 0) [(9, 9)] 1 none).files =
        ["recordings/" ++
          (none : Option String).getD
            ("clip_" ++ toString (1 : Int) ++ "s_" ++ "20240101_120000" ++ ".mp4")] :=
  encoding_failure_no_cleanup 20 "20240101_120000" 0 [(9, 9)] (by decide) 1
    (by decide) none
